import Mathlib

/-!
Verification of the heart-rate fan controller (`src/main.py`, `src/servo_test.py`).

The Python sources are shallowly embedded below: real-valued quantities are
modelled by `ℚ`, state-mutating methods become explicit state-passing
functions, and external effects (servo, display, subprocess calls) are
recorded as `Effect` values or driven by explicit environment records that
say how each external call behaves (result / raised an exception).
-/

/- Rational arithmetic must evaluate inside `decide` proofs on concrete
inputs, so the sealed core operations are made reducible for this file. -/
unseal Rat.add Rat.mul Rat.inv Rat.sub

/- Module-level constants of `src/main.py` (lines 32-38). -/

def UPDATE_INTERVAL : ℕ := 90

def MAX_CONSECUTIVE_FAILURES : ℕ := 3

def MIN_HEART_RATE : ℚ := 80

def MAX_HEART_RATE : ℚ := 150

def MIN_SERVO_POS : ℚ := -1

def MAX_SERVO_POS : ℚ := 1

/-- Embedding of `HeartRateFanController.heart_rate_to_servo_position` (main.py lines 149-153):
clamp to [MIN_HEART_RATE, MAX_HEART_RATE], normalise to [0,1], map linearly to
[-1, 1] (`return -1.0 + (hr_normalized * 2.0)`). Real arithmetic is modelled by `ℚ`. -/
def heart_rate_to_servo_position (heart_rate : ℚ) : ℚ :=
  let hr_clamped := max MIN_HEART_RATE (min MAX_HEART_RATE heart_rate);
  let hr_normalized := (hr_clamped - MIN_HEART_RATE) / (MAX_HEART_RATE - MIN_HEART_RATE);
  -1 + hr_normalized * 2

namespace servo_test

/-- Embedding of `heart_rate_to_servo_position` (servo_test.py lines 28-32), textually the
same computation as the controller method. -/
def heart_rate_to_servo_position (heart_rate : ℚ) : ℚ :=
  let hr_clamped := max MIN_HEART_RATE (min MAX_HEART_RATE heart_rate);
  let hr_normalized := (hr_clamped - MIN_HEART_RATE) / (MAX_HEART_RATE - MIN_HEART_RATE);
  -1 + hr_normalized * 2

/-- Embedding of `servo_position_to_heart_rate` (servo_test.py lines 34-38): the inverse
mapping used by the manual test utility. -/
def servo_position_to_heart_rate (servo_position : ℚ) : ℚ :=
  let hr_normalized := (servo_position + 1) / 2;
  MIN_HEART_RATE + hr_normalized * (MAX_HEART_RATE - MIN_HEART_RATE)

end servo_test

/-- Observable external effects issued by the controller: servo commands,
display writes, the `hciconfig` power-cycle steps and internal settle sleeps,
and log lines. The lists below record effects that actually happened; a call
that raised an exception contributes no effect. -/
inductive Effect where
  | servoSet (p : ℚ)
  | servoMin
  | servoClose
  | displayShow (s : String)
  | btDown
  | btUp
  | settle (secs : ℕ)
  | log (s : String)
deriving DecidableEq

/-- The mutable fields of `HeartRateFanController` (main.py lines 58-62),
plus the externally observable actuator state: `servoValue` is the position
the physical servo last received (`servo.min()` drives it to -1), and
`servoClosed` / `restCommands` track `servo.close()` and how many times
`servo.min()` (the rest-position command) has been issued. -/
structure ControllerState where
  running : Bool
  current_heart_rate : ℚ
  current_servo_pos : ℚ
  display_connected : Bool
  consecutive_failures : ℕ
  servoValue : ℚ
  servoClosed : Bool
  restCommands : ℕ
deriving DecidableEq

/-- Which known substring the stderr of the transport command matches first,
mirroring the three `in result.stderr` checks of main.py lines 123-134; the
branches differ only in the logged message, so only the class is modelled. -/
inductive StderrClass where
  | deviceNotFound
  | notConnected
  | timeoutError
  | other
deriving DecidableEq

/-- Environment of one `get_heart_rate` call: either `subprocess.run`
completed (`ran returncode stdoutLines stderrClass`), or it raised
`subprocess.TimeoutExpired`, or some other exception was raised inside the
`try` block. A stdout line is modelled by its parse: `some vs` stands for a
line that starts with a bracket, ends with a bracket and `json.loads` to the
numeric array `vs`; `none` stands for any other line. -/
inductive PollEnv where
  | ran (returncode : Int) (stdoutLines : List (Option (List ℚ))) (stderr : StderrClass)
  | timeoutExpired
  | raised
deriving DecidableEq

/-- The `for line in output_lines` loop of main.py lines 115-120: the first
bracket-delimited line whose parsed array is non-empty yields its last
element; empty arrays and non-bracket lines are skipped. -/
def findReading : List (Option (List ℚ)) → Option ℚ
  | [] => none
  | some vs :: rest =>
      match vs.getLast? with
      | some v => some v
      | none => findReading rest
  | none :: rest => findReading rest

/-- Embedding of `HeartRateFanController.get_heart_rate` (main.py lines 98-147). Returns
the optional reading together with the updated state: `consecutive_failures`
is zeroed just before a reading is returned (line 119) and incremented on
every other path — the stderr pattern checks (lines 123-134), the generic
failure fallthrough (lines 136-138), `TimeoutExpired` (lines 140-143) and
the catch-all `except Exception` (lines 144-147) all increment it by one and
return `None`, differing only in the logged text. -/
def get_heart_rate (s : ControllerState) (env : PollEnv) : Option ℚ × ControllerState :=
  match env with
  | .ran returncode stdoutLines _stderr =>
      if returncode = 0 then
        match findReading stdoutLines with
        | some v => (some v, { s with consecutive_failures := 0 })
        | none => (none, { s with consecutive_failures := s.consecutive_failures + 1 })
      else
        (none, { s with consecutive_failures := s.consecutive_failures + 1 })
  | .timeoutExpired =>
      (none, { s with consecutive_failures := s.consecutive_failures + 1 })
  | .raised =>
      (none, { s with consecutive_failures := s.consecutive_failures + 1 })

/-- Environment of one `reset_bluetooth` call: whether `display.show(" BT ")`
raises, and whether each of the two `subprocess.run(..., check=True)`
power-cycle commands raises. -/
structure ResetEnv where
  displayRaises : Bool
  downRaises : Bool
  upRaises : Bool
deriving DecidableEq

/-- Embedding of `HeartRateFanController.reset_bluetooth` (main.py lines 81-96). The whole
body is one `try` block: `display.show(" BT ")`, adapter down, 2s settle,
adapter up, 2s settle, `return True`; any exception in any of those steps is
caught by the `except` (line 94), logged, and the method returns `False`.
The returned list records the effects that completed before any exception. -/
def reset_bluetooth (env : ResetEnv) : Bool × List Effect :=
  if env.displayRaises then
    (false, [Effect.log "Failed to reset Bluetooth"])
  else if env.downRaises then
    (false, [Effect.displayShow " BT ", Effect.log "Failed to reset Bluetooth"])
  else if env.upRaises then
    (false, [Effect.displayShow " BT ", Effect.btDown, Effect.settle 2,
             Effect.log "Failed to reset Bluetooth"])
  else
    (true, [Effect.displayShow " BT ", Effect.btDown, Effect.settle 2,
            Effect.btUp, Effect.settle 2])

/-- Embedding of `HeartRateFanController.update_display` (main.py lines 155-174): returns
immediately when `display_connected` is false; otherwise chooses the token
(" NA " when not connected, " HI " for readings ≥ 1000, a padded integer
string for 0 < reading < 1000, "----" otherwise); a raising `display.show`
is caught by the method's own `except`, which only logs a warning. `int()`
truncation is `⌊·⌋` here since the branch guarantees a positive reading. -/
def update_display (s : ControllerState) (heart_rate : ℚ) (connected : Bool)
    (displayRaises : Bool) : List Effect :=
  if !s.display_connected then []
  else if displayRaises then [Effect.log "Display update failed"]
  else if !connected then [Effect.displayShow " NA "]
  else if heart_rate > 0 then
    if heart_rate ≥ 1000 then [Effect.displayShow " HI "]
    else
      let hr := ⌊heart_rate⌋;
      if hr < 100 then [Effect.displayShow (" " ++ toString hr ++ " ")]
      else [Effect.displayShow (toString hr ++ " ")]
  else [Effect.displayShow "----"]

/-- Embedding of `HeartRateFanController.update_fan_speed` (main.py lines 176-184): command
the servo only when the new position differs from `current_servo_pos` by more
than the 0.1 dead-band, then update the display. `servoRaises` says whether
the `servo.value` assignment raises; a raise aborts the method (uncaught
here, the Boolean result reports it to the caller's boundary handler). -/
def update_fan_speed (s : ControllerState) (heart_rate : ℚ)
    (servoRaises displayRaises : Bool) : ControllerState × List Effect × Bool :=
  let servo_pos := heart_rate_to_servo_position heart_rate;
  if |servo_pos - s.current_servo_pos| > 1/10 then
    if servoRaises then (s, [], true)
    else
      let s1 := { s with servoValue := servo_pos, current_servo_pos := servo_pos };
      (s1, Effect.servoSet servo_pos :: update_display s1 heart_rate true displayRaises, false)
  else
    (s, update_display s heart_rate true displayRaises, false)

/-- Environment of one monitoring cycle: the transport invocation outcome,
whether the `servo.value` assignment raises, whether `display.show` inside
`update_display` raises, and the environment of a `reset_bluetooth` call
should one be made. -/
structure CycleEnv where
  poll : PollEnv
  servoRaises : Bool
  displayRaises : Bool
  reset : ResetEnv
deriving DecidableEq

/-- What one iteration of the monitoring loop produced: the new state, the
argument of the `time.sleep` that ends the cycle, whether `reset_bluetooth`
was invoked, the external effects, and whether an exception reached the
loop-boundary `except Exception` handler (main.py lines 213-215). -/
structure CycleResult where
  state : ControllerState
  sleepSecs : ℕ
  resetInvoked : Bool
  actions : List Effect
  raisedAtBoundary : Bool
deriving DecidableEq

/-- One iteration of `HeartRateFanController.monitor_heart_rate`
(main.py lines 189-215). On a reading: store it, run `update_fan_speed`,
sleep `UPDATE_INTERVAL`; an exception escaping `update_fan_speed` is caught
by the boundary `except Exception`, which logs and sleeps `UPDATE_INTERVAL`.
On no reading: show " NA ", and if `consecutive_failures >= 2` invoke
`reset_bluetooth` (zeroing the counter only when it returns `True`) and
sleep 5, else sleep 3. -/
def monitor_cycle (s : ControllerState) (env : CycleEnv) : CycleResult :=
  match get_heart_rate s env.poll with
  | (some heart_rate, s1) =>
      let s2 := { s1 with current_heart_rate := heart_rate };
      match update_fan_speed s2 heart_rate env.servoRaises env.displayRaises with
      | (s3, acts, raised) =>
          if raised then
            { state := s3, sleepSecs := UPDATE_INTERVAL, resetInvoked := false,
              actions := acts ++ [Effect.log "Error in monitoring loop"],
              raisedAtBoundary := true }
          else
            { state := s3, sleepSecs := UPDATE_INTERVAL, resetInvoked := false,
              actions := acts, raisedAtBoundary := false }
  | (none, s1) =>
      let acts0 := update_display s1 0 false env.displayRaises;
      if s1.consecutive_failures ≥ 2 then
        match reset_bluetooth env.reset with
        | (ok, racts) =>
            let s2 := if ok then { s1 with consecutive_failures := 0 } else s1;
            { state := s2, sleepSecs := 5, resetInvoked := true,
              actions := acts0 ++ racts, raisedAtBoundary := false }
      else
        { state := s1, sleepSecs := 3, resetInvoked := false,
          actions := acts0, raisedAtBoundary := false }

/-- Embedding of `HeartRateFanController.__init__` (main.py lines 54-79): fields start as
running, heart rate 0, stored servo position 0, display connected, zero
failures — then `servo.min()` immediately drives the physical servo to -1
(one rest command). `displayInitRaises` models the display-initialisation
`try` (lines 66-74) failing, which clears `display_connected`. The startup
`reset_bluetooth()` call touches no controller field. -/
def init (displayInitRaises : Bool) : ControllerState :=
  { running := true, current_heart_rate := 0, current_servo_pos := 0,
    display_connected := !displayInitRaises, consecutive_failures := 0,
    servoValue := -1, servoClosed := false, restCommands := 1 }

/-- Embedding of `HeartRateFanController.stop` (main.py lines 217-230): clear `running`,
command the servo to rest (`servo.min()`, unconditionally), run the guarded
display farewell (its bare `except: pass` swallows a raising `display.show`),
then `servo.close()`. The actuator driver is modelled as non-raising. -/
def stop (s : ControllerState) (displayRaises : Bool) : ControllerState × List Effect :=
  let s1 := { s with running := false, servoValue := -1,
                     restCommands := s.restCommands + 1 };
  let dacts :=
    if s1.display_connected then
      if displayRaises then []
      else [Effect.displayShow "L8TR", Effect.settle 1, Effect.displayShow "    "]
    else [];
  ({ s1 with servoClosed := true },
   Effect.servoMin :: (dacts ++ [Effect.servoClose]))

/-- Modelled from the spec (amended C2): "the first bracket-delimited
JSON-array line whose array is non-empty", stated independently of the
embedded scanning loop for comparison with it. -/
def firstNonemptyArrayLine : List (Option (List ℚ)) → Option (List ℚ)
  | [] => none
  | some vs :: rest => if vs = [] then firstNonemptyArrayLine rest else some vs
  | none :: rest => firstNonemptyArrayLine rest

/-- Modelled from the spec (claim C2 as stated): "the last element of the
last such line" — the last bracket-delimited JSON-array line of the output,
its last element. -/
def specLastLineReading (stdoutLines : List (Option (List ℚ))) : Option ℚ :=
  ((stdoutLines.filterMap id).getLast?).bind List.getLast?

/-- A Python float as far as comparison semantics are concerned: `none`
models NaN, `some q` an ordinary (exactly represented) value. -/
def PyFloat : Type := Option ℚ
deriving DecidableEq

/-- Python `<` on floats: every comparison involving NaN is `False`. -/
def pylt : PyFloat → PyFloat → Bool
  | some x, some y => decide (x < y)
  | _, _ => false

/-- CPython two-argument `min(a, b)`: keep `a` unless `b < a`. -/
def pymin (a b : PyFloat) : PyFloat := if pylt b a then b else a

/-- CPython two-argument `max(a, b)`: keep `a` unless `b > a`. -/
def pymax (a b : PyFloat) : PyFloat := if pylt a b then b else a

/-- NaN-propagating subtraction. -/
def pysub : PyFloat → PyFloat → PyFloat
  | some x, some y => some (x - y)
  | _, _ => none

/-- NaN-propagating division (the divisor used below is the constant 70). -/
def pydiv : PyFloat → PyFloat → PyFloat
  | some x, some y => some (x / y)
  | _, _ => none

/-- NaN-propagating multiplication. -/
def pymul : PyFloat → PyFloat → PyFloat
  | some x, some y => some (x * y)
  | _, _ => none

/-- NaN-propagating addition. -/
def pyadd : PyFloat → PyFloat → PyFloat
  | some x, some y => some (x + y)
  | _, _ => none

/-- The mapping `heart_rate_to_servo_position` re-expressed over `PyFloat`, keeping the
exact call shape of main.py lines 149-153 —
`max(MIN_HEART_RATE, min(MAX_HEART_RATE, heart_rate))` then the linear map —
so that the behaviour on a NaN argument is that of the Python code. -/
def heart_rate_to_servo_position_py (heart_rate : PyFloat) : PyFloat :=
  let hr_clamped := pymax (some MIN_HEART_RATE) (pymin (some MAX_HEART_RATE) heart_rate);
  let hr_normalized := pydiv (pysub hr_clamped (some MIN_HEART_RATE))
      (pysub (some MAX_HEART_RATE) (some MIN_HEART_RATE));
  pyadd (some (-1)) (pymul hr_normalized (some 2))

/-- Is some `servoSet` command among the actions? -/
def hasServoSet : List Effect → Bool
  | [] => false
  | Effect.servoSet _ :: _ => true
  | _ :: rest => hasServoSet rest

/-- A cycle environment for one transient failure: the transport exits
non-zero with a device-not-found stderr; no other call misbehaves, and a
reset (if invoked) succeeds. -/
def transientEnv : CycleEnv :=
  { poll := PollEnv.ran 1 [] StderrClass.deviceNotFound,
    servoRaises := false, displayRaises := false,
    reset := { displayRaises := false, downRaises := false, upRaises := false } }

/-- A cycle environment for a successful reading of 100 BPM (single batched
line `[100]`). -/
def successEnv : CycleEnv :=
  { poll := PollEnv.ran 0 [some [100]] StderrClass.other,
    servoRaises := false, displayRaises := false,
    reset := { displayRaises := false, downRaises := false, upRaises := false } }

/-- A transient-failure cycle environment in which the Bluetooth reset, if
invoked, fails (the adapter-down command raises). -/
def failResetEnv : CycleEnv :=
  { poll := PollEnv.ran 1 [] StderrClass.deviceNotFound,
    servoRaises := false, displayRaises := false,
    reset := { displayRaises := false, downRaises := true, upRaises := false } }

/-- A cycle environment for a successful reading of 115 BPM, the midpoint of
the heart-rate band (mapped position 0). -/
def midbandEnv : CycleEnv :=
  { poll := PollEnv.ran 0 [some [115]] StderrClass.other,
    servoRaises := false, displayRaises := false,
    reset := { displayRaises := false, downRaises := false, upRaises := false } }

/-- A cycle environment in which the transport succeeds with 150 BPM but the
subsequent `servo.value` assignment raises an unexpected exception. -/
def servoRaiseEnv : CycleEnv :=
  { poll := PollEnv.ran 0 [some [150]] StderrClass.other,
    servoRaises := true, displayRaises := false,
    reset := { displayRaises := false, downRaises := false, upRaises := false } }

/-- A cycle environment whose transport output has two bracket-delimited
JSON-array lines, `[1]` then `[2]`. -/
def twoLineEnv : CycleEnv :=
  { poll := PollEnv.ran 0 [some [1], some [2]] StderrClass.other,
    servoRaises := false, displayRaises := false,
    reset := { displayRaises := false, downRaises := false, upRaises := false } }

/-- State after one transient-failure cycle from a fresh controller. -/
def escState1 : ControllerState := (monitor_cycle (init false) transientEnv).state

/-- State after two consecutive transient-failure cycles from a fresh
controller (the second one triggers the Bluetooth reset). -/
def escState2 : ControllerState := (monitor_cycle escState1 transientEnv).state

/-- C4: for every heart-rate input `r`, the mapping lands in [-1, 1], hits the
boundaries exactly (`map 80 = -1`, `map 150 = 1`), and saturates outside the
[80, 150] band (`map r = map 80` for `r < 80`, `map r = map 150` for `r > 150`). -/
theorem C4_mapping_clamping :
    ∀ r : ℚ,
      (-1 ≤ heart_rate_to_servo_position r ∧ heart_rate_to_servo_position r ≤ 1)
      ∧ heart_rate_to_servo_position 80 = -1
      ∧ heart_rate_to_servo_position 150 = 1
      ∧ (r < 80 → heart_rate_to_servo_position r = heart_rate_to_servo_position 80)
      ∧ (r > 150 → heart_rate_to_servo_position r = heart_rate_to_servo_position 150) := by
  intro r
  have h80 : heart_rate_to_servo_position 80 = -1 := by
    norm_num [heart_rate_to_servo_position, MIN_HEART_RATE, MAX_HEART_RATE]
  have h150 : heart_rate_to_servo_position 150 = 1 := by
    norm_num [heart_rate_to_servo_position, MIN_HEART_RATE, MAX_HEART_RATE]
  refine ⟨?_, h80, h150, ?_, ?_⟩
  · have hlo : (80 : ℚ) ≤ max 80 (min 150 r) := le_max_left _ _
    have hhi : max (80 : ℚ) (min 150 r) ≤ 150 :=
      max_le (by norm_num) (min_le_left _ _)
    constructor
    · simp only [heart_rate_to_servo_position, MIN_HEART_RATE, MAX_HEART_RATE]
      have h1 : (0 : ℚ) ≤ (max 80 (min 150 r) - 80) / (150 - 80) := by
        apply div_nonneg <;> linarith
      linarith
    · simp only [heart_rate_to_servo_position, MIN_HEART_RATE, MAX_HEART_RATE]
      have h2 : (max (80 : ℚ) (min 150 r) - 80) / (150 - 80) ≤ 1 := by
        rw [div_le_one (by norm_num)]
        linarith
      linarith
  · intro hr
    have hmin : min (150 : ℚ) r = r := min_eq_right (by linarith)
    have hmax : max (80 : ℚ) r = 80 := max_eq_left (by linarith)
    rw [h80]
    simp only [heart_rate_to_servo_position, MIN_HEART_RATE, MAX_HEART_RATE, hmin, hmax]
    norm_num
  · intro hr
    have hmin : min (150 : ℚ) r = 150 := min_eq_left (by linarith)
    rw [h150]
    simp only [heart_rate_to_servo_position, MIN_HEART_RATE, MAX_HEART_RATE, hmin]
    norm_num

/-- C4 witness: concrete saturation at 70 (below band) and 200 (above band). -/
theorem C4_mapping_clamping_witness :
    heart_rate_to_servo_position 70 = heart_rate_to_servo_position 80
    ∧ heart_rate_to_servo_position 200 = heart_rate_to_servo_position 150 :=
  ⟨(C4_mapping_clamping 70).2.2.2.1 (by norm_num),
   (C4_mapping_clamping 200).2.2.2.2 (by norm_num)⟩

/-- C7: on [-1, 1] the manual-test inverse mapping is the exact algebraic
inverse of the mapping function, hence the round trip is within 1e-6. -/
theorem C7_inverse_round_trip :
    ∀ p : ℚ, -1 ≤ p → p ≤ 1 →
      servo_test.heart_rate_to_servo_position (servo_test.servo_position_to_heart_rate p) = p
      ∧ |servo_test.heart_rate_to_servo_position (servo_test.servo_position_to_heart_rate p) - p|
          ≤ 1 / 1000000 := by
  intro p hlo hhi
  have hval : servo_test.servo_position_to_heart_rate p = 80 + (p + 1) / 2 * 70 := by
    simp only [servo_test.servo_position_to_heart_rate, MIN_HEART_RATE, MAX_HEART_RATE]
    ring
  have hband_lo : (80 : ℚ) ≤ 80 + (p + 1) / 2 * 70 := by nlinarith
  have hband_hi : 80 + (p + 1) / 2 * 70 ≤ 150 := by nlinarith
  have hmin : min (150 : ℚ) (80 + (p + 1) / 2 * 70) = 80 + (p + 1) / 2 * 70 :=
    min_eq_right hband_hi
  have hmax : max (80 : ℚ) (80 + (p + 1) / 2 * 70) = 80 + (p + 1) / 2 * 70 :=
    max_eq_right hband_lo
  have hrt : servo_test.heart_rate_to_servo_position (servo_test.servo_position_to_heart_rate p)
      = p := by
    rw [hval]
    simp only [servo_test.heart_rate_to_servo_position, MIN_HEART_RATE, MAX_HEART_RATE,
      hmin, hmax]
    ring
  refine ⟨hrt, ?_⟩
  rw [hrt]
  norm_num

/-- C7 witness: the round trip at p = 1/2 recovers 1/2 exactly. -/
theorem C7_inverse_round_trip_witness :
    servo_test.heart_rate_to_servo_position (servo_test.servo_position_to_heart_rate (1/2))
      = 1/2 :=
  (C7_inverse_round_trip (1/2) (by norm_num) (by norm_num)).1

/-- The state component of `get_heart_rate`: the failure counter is zeroed
exactly when a reading is produced, incremented otherwise; no other field
changes. -/
theorem get_heart_rate_snd (s : ControllerState) (p : PollEnv) :
    (get_heart_rate s p).2 =
      { s with consecutive_failures :=
          if (get_heart_rate s p).1.isSome then 0 else s.consecutive_failures + 1 } := by
  cases p with
  | ran rc lines st =>
      by_cases h : rc = 0
      · subst h
        cases hf : findReading lines <;> simp [get_heart_rate, hf]
      · simp [get_heart_rate, h]
  | timeoutExpired => simp [get_heart_rate]
  | raised => simp [get_heart_rate]

/-- Pair form of a successful `get_heart_rate` call. -/
theorem get_heart_rate_pair_some (s : ControllerState) (p : PollEnv) (r : ℚ)
    (h : (get_heart_rate s p).1 = some r) :
    get_heart_rate s p = (some r, { s with consecutive_failures := 0 }) := by
  have h2 := get_heart_rate_snd s p
  rw [h] at h2
  simp only [Option.isSome_some, if_pos] at h2
  rw [Prod.ext_iff]
  exact ⟨h, h2⟩

/-- Pair form of a failing `get_heart_rate` call. -/
theorem get_heart_rate_pair_none (s : ControllerState) (p : PollEnv)
    (h : (get_heart_rate s p).1 = none) :
    get_heart_rate s p
      = (none, { s with consecutive_failures := s.consecutive_failures + 1 }) := by
  have h2 := get_heart_rate_snd s p
  rw [h] at h2
  simp only [Option.isSome_none, Bool.false_eq_true, if_neg, ite_false] at h2
  rw [Prod.ext_iff]
  exact ⟨h, h2⟩

/-- The method `update_fan_speed` touches only `servoValue` and `current_servo_pos`. -/
theorem update_fan_speed_state_fields (s : ControllerState) (hr : ℚ) (sr dr : Bool) :
    (update_fan_speed s hr sr dr).1.consecutive_failures = s.consecutive_failures
    ∧ (update_fan_speed s hr sr dr).1.running = s.running
    ∧ (update_fan_speed s hr sr dr).1.current_heart_rate = s.current_heart_rate
    ∧ (update_fan_speed s hr sr dr).1.display_connected = s.display_connected := by
  simp only [update_fan_speed]
  split_ifs <;> simp

/-- Unfolding of a cycle that obtained a reading. -/
theorem monitor_cycle_success_eq (s : ControllerState) (env : CycleEnv) (r : ℚ)
    (h : (get_heart_rate s env.poll).1 = some r) :
    monitor_cycle s env =
      (let s2 := { s with consecutive_failures := 0, current_heart_rate := r };
       let ufs := update_fan_speed s2 r env.servoRaises env.displayRaises;
       if ufs.2.2 then
         { state := ufs.1, sleepSecs := UPDATE_INTERVAL, resetInvoked := false,
           actions := ufs.2.1 ++ [Effect.log "Error in monitoring loop"],
           raisedAtBoundary := true }
       else
         { state := ufs.1, sleepSecs := UPDATE_INTERVAL, resetInvoked := false,
           actions := ufs.2.1, raisedAtBoundary := false }) := by
  have hp := get_heart_rate_pair_some s env.poll r h
  unfold monitor_cycle
  rw [hp]

/-- Unfolding of a cycle that obtained no reading. -/
theorem monitor_cycle_failure_eq (s : ControllerState) (env : CycleEnv)
    (h : (get_heart_rate s env.poll).1 = none) :
    monitor_cycle s env =
      (let s1 := { s with consecutive_failures := s.consecutive_failures + 1 };
       let acts0 := update_display s1 0 false env.displayRaises;
       if s1.consecutive_failures ≥ 2 then
         let rb := reset_bluetooth env.reset;
         let s2 := if rb.1 then { s1 with consecutive_failures := 0 } else s1;
         { state := s2, sleepSecs := 5, resetInvoked := true,
           actions := acts0 ++ rb.2, raisedAtBoundary := false }
       else
         { state := s1, sleepSecs := 3, resetInvoked := false,
           actions := acts0, raisedAtBoundary := false }) := by
  have hp := get_heart_rate_pair_none s env.poll h
  unfold monitor_cycle
  rw [hp]

/-- Both branches of a successful cycle agree on state, sleep and reset flag. -/
theorem monitor_cycle_success_core (s : ControllerState) (env : CycleEnv) (r : ℚ)
    (h : (get_heart_rate s env.poll).1 = some r) :
    (monitor_cycle s env).state =
      (update_fan_speed { s with consecutive_failures := 0, current_heart_rate := r }
        r env.servoRaises env.displayRaises).1
    ∧ (monitor_cycle s env).sleepSecs = UPDATE_INTERVAL
    ∧ (monitor_cycle s env).resetInvoked = false := by
  simp only [monitor_cycle_success_eq s env r h]
  split <;> simp

/-- Behavioural summary of a successful cycle. -/
theorem monitor_cycle_success_spec (s : ControllerState) (env : CycleEnv) (r : ℚ)
    (h : (get_heart_rate s env.poll).1 = some r) :
    (monitor_cycle s env).state.consecutive_failures = 0
    ∧ (monitor_cycle s env).sleepSecs = UPDATE_INTERVAL
    ∧ (monitor_cycle s env).resetInvoked = false
    ∧ (monitor_cycle s env).state.running = s.running
    ∧ (monitor_cycle s env).state.current_heart_rate = r := by
  obtain ⟨hst, hsl, hri⟩ := monitor_cycle_success_core s env r h
  obtain ⟨h1, h2, h3, h4⟩ := update_fan_speed_state_fields
    { s with consecutive_failures := 0, current_heart_rate := r } r
    env.servoRaises env.displayRaises
  rw [hst]
  exact ⟨by simp [h1], hsl, hri, by simp [h2], by simp [h3]⟩

/-- Behavioural summary of a failing cycle. -/
theorem monitor_cycle_failure_spec (s : ControllerState) (env : CycleEnv)
    (h : (get_heart_rate s env.poll).1 = none) :
    ((monitor_cycle s env).resetInvoked = true ↔ 2 ≤ s.consecutive_failures + 1)
    ∧ (monitor_cycle s env).state.consecutive_failures =
        (if 2 ≤ s.consecutive_failures + 1 ∧ (reset_bluetooth env.reset).1 = true
         then 0 else s.consecutive_failures + 1)
    ∧ (monitor_cycle s env).sleepSecs = (if 2 ≤ s.consecutive_failures + 1 then 5 else 3)
    ∧ (monitor_cycle s env).raisedAtBoundary = false
    ∧ (monitor_cycle s env).state.running = s.running := by
  simp only [monitor_cycle_failure_eq s env h]
  by_cases h2 : 2 ≤ s.consecutive_failures + 1
  · by_cases hok : (reset_bluetooth env.reset).1 = true
    · simp [h2, hok]
    · simp only [Bool.not_eq_true] at hok
      simp [h2, hok]
  · simp [h2]

/-- The scanning loop agrees with "last element of the first non-empty
bracket-delimited array line". -/
theorem findReading_eq_first (lines : List (Option (List ℚ))) :
    findReading lines = (firstNonemptyArrayLine lines).bind List.getLast? := by
  induction lines with
  | nil => rfl
  | cons hd tl ih =>
      cases hd with
      | none => simpa [findReading, firstNonemptyArrayLine] using ih
      | some vs =>
          cases hvs : vs.getLast? with
          | none =>
              have hnil : vs = [] := List.getLast?_eq_none_iff.mp hvs
              simpa [findReading, firstNonemptyArrayLine, hvs, hnil] using ih
          | some v =>
              have hne : ¬vs = [] := by
                intro hcon
                rw [hcon] at hvs
                simp at hvs
              simp [findReading, firstNonemptyArrayLine, hvs, hne]

/-- Python two-argument `min` agrees with `min` on non-NaN floats. -/
theorem pymin_some (a b : ℚ) : pymin (some a) (some b) = some (min a b) := by
  simp only [pymin, pylt, min_def, decide_eq_true_eq]
  split_ifs with h1 h2 h2 <;> first | rfl | (exfalso; linarith)

/-- Python two-argument `max` agrees with `max` on non-NaN floats. -/
theorem pymax_some (a b : ℚ) : pymax (some a) (some b) = some (max a b) := by
  simp only [pymax, pylt, max_def, decide_eq_true_eq]
  split_ifs with h1 h2 h2 <;> first | rfl | (exfalso; linarith) | (congr 1; linarith)

/-- C2 counterexample: with transport output consisting of the two
bracket-delimited JSON-array lines `[1]` and `[2]`, the code's Reading is `1`
(last element of the FIRST such line), while the claim's "last element of the
last such line" is `2`; the Monitor Loop stores `1`. The claim is therefore
false on this input. -/
theorem C2_first_line_counterexample :
    (get_heart_rate (init false) twoLineEnv.poll).1 = some 1
    ∧ specLastLineReading [some [1], some [2]] = some 2
    ∧ (get_heart_rate (init false) twoLineEnv.poll).1
        ≠ specLastLineReading [some [1], some [2]]
    ∧ (monitor_cycle (init false) twoLineEnv).state.current_heart_rate = 1 := by
  decide

/-- C2 amended: for every successful Sensor Transport invocation (exit code
0), the Reading used by the Monitor Loop is the last element of the FIRST
bracket-delimited JSON-array line whose array is non-empty (and no reading
when there is no such line). Proved against the spec-worded selector
`firstNonemptyArrayLine`. -/
theorem C2_reading_selection_amended :
    ∀ (s : ControllerState) (stdoutLines : List (Option (List ℚ))) (st : StderrClass),
      (get_heart_rate s (PollEnv.ran 0 stdoutLines st)).1
        = (firstNonemptyArrayLine stdoutLines).bind List.getLast? := by
  intro s stdoutLines st
  rw [← findReading_eq_first]
  cases hf : findReading stdoutLines <;> simp [get_heart_rate, hf]

/-- C8 counterexample: on a NaN heart rate the mapping raises no validation
error — it returns the ordinary value 1.0 (Python's `min(150, nan)` keeps
150 because NaN comparisons are false, so NaN clamps to the top of the
band). The claim's required behaviour (an explicit validation error) is
therefore false on this input; note NaN is not propagated either. -/
theorem C8_nan_counterexample :
    heart_rate_to_servo_position_py none = some 1 := by decide

/-- C8 amended: the mapping is pure and total over all inputs including NaN;
on every ordinary input it computes exactly the rational-valued mapping, and
on NaN it neither raises a validation error nor propagates NaN but returns
the saturated position 1.0. -/
theorem C8_nan_amended :
    heart_rate_to_servo_position_py none = some 1
    ∧ ∀ r : ℚ, heart_rate_to_servo_position_py (some r)
        = some (heart_rate_to_servo_position r) := by
  refine ⟨by decide, ?_⟩
  intro r
  simp only [heart_rate_to_servo_position_py, heart_rate_to_servo_position,
    pymin_some, pymax_some, pysub, pydiv, pymul, pyadd]

/-- C9 counterexample: from a fresh controller, invoking `stop` twice in
succession issues the rest-position command (`servo.min()`) twice — not
exactly once as the claim requires. (Neither invocation raises in the model:
the display farewell is guarded by a bare `except`.) -/
theorem C9_double_stop_counterexample :
    ((stop (init false) false).2 ++ (stop (stop (init false) false).1 false).2).count
        Effect.servoMin = 2
    ∧ ((stop (init false) false).2 ++ (stop (stop (init false) false).1 false).2).count
        Effect.servoMin ≠ 1 := by
  decide

/-- C9 amended: invoking shutdown twice in succession raises no exception
(display failures are swallowed; the actuator driver is modelled as
non-raising) and commands the actuator to the rest position exactly once per
invocation — hence exactly twice across both — leaving it at rest with
`running` false and the servo released. -/
theorem C9_double_stop_amended :
    ∀ (s : ControllerState) (d1 d2 : Bool),
      (stop (stop s d1).1 d2).1.restCommands = s.restCommands + 2
      ∧ (stop (stop s d1).1 d2).1.running = false
      ∧ (stop (stop s d1).1 d2).1.servoValue = -1
      ∧ (stop (stop s d1).1 d2).1.servoClosed = true
      ∧ ((stop s d1).2 ++ (stop (stop s d1).1 d2).2).count Effect.servoMin = 2 := by
  intro s d1 d2
  simp only [stop]
  refine ⟨trivial, trivial, trivial, trivial, ?_⟩
  split_ifs <;> rfl

/-- Inside the [80, 150] band the clamp is the identity. -/
theorem map_in_band (r : ℚ) (h1 : 80 ≤ r) (h2 : r ≤ 150) :
    heart_rate_to_servo_position r = -1 + (r - 80) / (150 - 80) * 2 := by
  simp only [heart_rate_to_servo_position, MIN_HEART_RATE, MAX_HEART_RATE,
    min_eq_right h2, max_eq_right h1]

/-- Below the band the mapping saturates to -1. -/
theorem map_below_band (r : ℚ) (h : r < 80) : heart_rate_to_servo_position r = -1 := by
  have hmin : min (150 : ℚ) r = r := min_eq_right (by linarith)
  have hmax : max (80 : ℚ) r = 80 := max_eq_left (by linarith)
  simp only [heart_rate_to_servo_position, MIN_HEART_RATE, MAX_HEART_RATE, hmin, hmax]
  norm_num

/-- Above the band the mapping saturates to 1. -/
theorem map_above_band (r : ℚ) (h : 150 < r) : heart_rate_to_servo_position r = 1 := by
  have hmin : min (150 : ℚ) r = 150 := min_eq_left (by linarith)
  simp only [heart_rate_to_servo_position, MIN_HEART_RATE, MAX_HEART_RATE, hmin]
  norm_num

/-- The method `update_display` never issues a servo command. -/
theorem hasServoSet_update_display (s : ControllerState) (hr : ℚ) (c dr : Bool) :
    hasServoSet (update_display s hr c dr) = false := by
  simp only [update_display]
  split_ifs <;> rfl

/-- Within the dead-band, `update_fan_speed` leaves the state untouched and
only updates the display. -/
theorem update_fan_speed_deadband (s : ControllerState) (hr : ℚ) (sr dr : Bool)
    (h : ¬(|heart_rate_to_servo_position hr - s.current_servo_pos| > 1/10)) :
    update_fan_speed s hr sr dr = (s, update_display s hr true dr, false) := by
  simp only [update_fan_speed]
  rw [if_neg h]

/-- The method `update_fan_speed` returns the same state and raise flag whatever the
display environment does. -/
theorem update_fan_speed_dr_core (s : ControllerState) (hr : ℚ) (sr dr : Bool) :
    (update_fan_speed s hr sr dr).1 = (update_fan_speed s hr sr false).1
    ∧ (update_fan_speed s hr sr dr).2.2 = (update_fan_speed s hr sr false).2.2 := by
  simp only [update_fan_speed]
  split_ifs <;> simp

/-- C1: the Monitor Loop's FailureCount policy. (i) Every cycle with a
successful Reading ends with FailureCount 0. (ii) After a failing cycle,
Transport Reset was invoked exactly when the (just-incremented) FailureCount
reached 2. (iii) A failing cycle whose reset succeeds ends with FailureCount
0. (iv) A failing cycle with no successful reset ends with FailureCount
incremented by exactly 1. (v) For the outcome sequence
[Transient, Transient, Success] from a fresh controller, the reset is
invoked exactly once — after the second failure — and FailureCount is 0
immediately after the Success. -/
theorem C1_failure_count_policy :
    (∀ (s : ControllerState) (env : CycleEnv) (r : ℚ),
        (get_heart_rate s env.poll).1 = some r →
        (monitor_cycle s env).state.consecutive_failures = 0)
    ∧ (∀ (s : ControllerState) (env : CycleEnv),
        (get_heart_rate s env.poll).1 = none →
        ((monitor_cycle s env).resetInvoked = true ↔ 2 ≤ s.consecutive_failures + 1))
    ∧ (∀ (s : ControllerState) (env : CycleEnv),
        (get_heart_rate s env.poll).1 = none →
        (monitor_cycle s env).resetInvoked = true →
        (reset_bluetooth env.reset).1 = true →
        (monitor_cycle s env).state.consecutive_failures = 0)
    ∧ (∀ (s : ControllerState) (env : CycleEnv),
        (get_heart_rate s env.poll).1 = none →
        ¬((monitor_cycle s env).resetInvoked = true ∧ (reset_bluetooth env.reset).1 = true) →
        (monitor_cycle s env).state.consecutive_failures = s.consecutive_failures + 1)
    ∧ ((monitor_cycle (init false) transientEnv).resetInvoked = false
        ∧ escState1.consecutive_failures = 1
        ∧ (monitor_cycle escState1 transientEnv).resetInvoked = true
        ∧ escState2.consecutive_failures = 0
        ∧ (monitor_cycle escState2 successEnv).resetInvoked = false
        ∧ (monitor_cycle escState2 successEnv).state.consecutive_failures = 0) := by
  refine ⟨?_, ?_, ?_, ?_, by decide⟩
  · intro s env r h
    exact (monitor_cycle_success_spec s env r h).1
  · intro s env h
    exact (monitor_cycle_failure_spec s env h).1
  · intro s env h hres hok
    have hspec := monitor_cycle_failure_spec s env h
    rw [hspec.2.1, if_pos ⟨hspec.1.mp hres, hok⟩]
  · intro s env h hn
    have hspec := monitor_cycle_failure_spec s env h
    rw [hspec.2.1, if_neg]
    rintro ⟨h2, hok⟩
    exact hn ⟨hspec.1.mpr h2, hok⟩

/-- C1 witness: a concrete successful cycle from a fresh controller ends with
FailureCount 0. -/
theorem C1_failure_count_policy_witness :
    (monitor_cycle (init false) successEnv).state.consecutive_failures = 0 :=
  C1_failure_count_policy.1 (init false) successEnv 100 (by decide)

/-- C5: when a failing cycle attempts a Transport Reset and the reset
reports failure, FailureCount keeps its pre-reset (just-incremented) value —
it is not cleared. (`reset_bluetooth` is a total function into `Bool` by
construction: every exception inside it is caught and mapped to `false`, so
the Monitor Loop only ever observes a Boolean.) -/
theorem C5_reset_failure_keeps_count :
    ∀ (s : ControllerState) (env : CycleEnv),
      (get_heart_rate s env.poll).1 = none →
      1 ≤ s.consecutive_failures →
      (reset_bluetooth env.reset).1 = false →
      (monitor_cycle s env).resetInvoked = true
      ∧ (monitor_cycle s env).state.consecutive_failures = s.consecutive_failures + 1 := by
  intro s env h h1 hfail
  have hspec := monitor_cycle_failure_spec s env h
  have h2 : 2 ≤ s.consecutive_failures + 1 := by omega
  refine ⟨hspec.1.mpr h2, ?_⟩
  rw [hspec.2.1, if_neg]
  rintro ⟨_, hok⟩
  rw [hfail] at hok
  exact Bool.false_ne_true hok

/-- C5 witness: after one transient failure (count 1), a second failing
cycle with a failing reset keeps count 2. -/
theorem C5_reset_failure_keeps_count_witness :
    (monitor_cycle escState1 failResetEnv).resetInvoked = true
    ∧ (monitor_cycle escState1 failResetEnv).state.consecutive_failures
        = escState1.consecutive_failures + 1 :=
  C5_reset_failure_keeps_count escState1 failResetEnv (by decide) (by decide) (by decide)

/-- C6: whenever an exception reaches the monitoring loop's boundary handler
(only possible after a successful poll, since `get_heart_rate` and
`reset_bluetooth` catch their own exceptions), the cycle sleeps
UPDATE_INTERVAL (90s) — not the 3s/5s failure backoff — FailureCount is not
incremented (the successful poll had already cleared it to 0), and the loop
keeps running. -/
theorem C6_unexpected_exception_backoff :
    ∀ (s : ControllerState) (env : CycleEnv),
      (monitor_cycle s env).raisedAtBoundary = true →
      (monitor_cycle s env).sleepSecs = UPDATE_INTERVAL
      ∧ (monitor_cycle s env).sleepSecs ≠ 3
      ∧ (monitor_cycle s env).sleepSecs ≠ 5
      ∧ (monitor_cycle s env).state.consecutive_failures ≤ s.consecutive_failures
      ∧ (monitor_cycle s env).state.running = s.running := by
  intro s env hraise
  cases hf : (get_heart_rate s env.poll).1 with
  | none =>
      have hspec := monitor_cycle_failure_spec s env hf
      rw [hspec.2.2.2.1] at hraise
      exact absurd hraise (by simp)
  | some r =>
      obtain ⟨hc, hsl, _, hrun, _⟩ := monitor_cycle_success_spec s env r hf
      refine ⟨hsl, ?_, ?_, ?_, hrun⟩
      · rw [hsl]; decide
      · rw [hsl]; decide
      · rw [hc]; exact Nat.zero_le _

/-- C6 witness: a successful 150 BPM poll followed by a raising
`servo.value` assignment reaches the boundary handler and sleeps 90s. -/
theorem C6_unexpected_exception_backoff_witness :
    (monitor_cycle (init false) servoRaiseEnv).sleepSecs = UPDATE_INTERVAL
    ∧ (monitor_cycle (init false) servoRaiseEnv).sleepSecs ≠ 3
    ∧ (monitor_cycle (init false) servoRaiseEnv).sleepSecs ≠ 5
    ∧ (monitor_cycle (init false) servoRaiseEnv).state.consecutive_failures
        ≤ (init false).consecutive_failures
    ∧ (monitor_cycle (init false) servoRaiseEnv).state.running = (init false).running :=
  C6_unexpected_exception_backoff (init false) servoRaiseEnv (by decide)

/-- C3 counterexample: in `reset_bluetooth`, the `display.show(" BT ")` call
sits inside the same `try` as the power-cycle commands; when that display
call raises, the method catches it but returns `False` WITHOUT attempting
the adapter power-cycle (no `hciconfig down` is run). This falsifies the
claim that a failing display update neither prevents the power-cycle nor
makes resetTransport report failure. -/
theorem C3_reset_display_counterexample :
    (reset_bluetooth { displayRaises := true, downRaises := false, upRaises := false }).1
        = false
    ∧ Effect.btDown ∉
        (reset_bluetooth { displayRaises := true, downRaises := false, upRaises := false }).2 := by
  decide

/-- C3 amended: (i) display failures inside `update_display` are logged and
swallowed and never alter the Monitor Loop's control flow — the cycle's
resulting state, sleep, reset decision and boundary-exception flag are
independent of whether `display.show` raised there; (ii) Transport Reset
shows the in-progress token " BT " first whenever the display call succeeds;
but (iii) if that one display call raises, `reset_bluetooth` catches the
exception (nothing propagates), skips the power-cycle, and returns false. -/
theorem C3_display_failures_amended :
    (∀ (s : ControllerState) (p : PollEnv) (sr dr : Bool) (renv : ResetEnv),
        (monitor_cycle s ⟨p, sr, dr, renv⟩).state
            = (monitor_cycle s ⟨p, sr, false, renv⟩).state
        ∧ (monitor_cycle s ⟨p, sr, dr, renv⟩).sleepSecs
            = (monitor_cycle s ⟨p, sr, false, renv⟩).sleepSecs
        ∧ (monitor_cycle s ⟨p, sr, dr, renv⟩).resetInvoked
            = (monitor_cycle s ⟨p, sr, false, renv⟩).resetInvoked
        ∧ (monitor_cycle s ⟨p, sr, dr, renv⟩).raisedAtBoundary
            = (monitor_cycle s ⟨p, sr, false, renv⟩).raisedAtBoundary)
    ∧ (∀ renv : ResetEnv, renv.displayRaises = false →
        (reset_bluetooth renv).2.head? = some (Effect.displayShow " BT "))
    ∧ (∀ renv : ResetEnv, renv.displayRaises = true →
        (reset_bluetooth renv).1 = false ∧ Effect.btDown ∉ (reset_bluetooth renv).2) := by
  refine ⟨?_, ?_, ?_⟩
  · intro s p sr dr renv
    cases hf : (get_heart_rate s p).1 with
    | some r =>
        have h1 := monitor_cycle_success_eq s ⟨p, sr, dr, renv⟩ r hf
        have h2 := monitor_cycle_success_eq s ⟨p, sr, false, renv⟩ r hf
        obtain ⟨ha, hb⟩ := update_fan_speed_dr_core
          { s with consecutive_failures := 0, current_heart_rate := r } r sr dr
        by_cases hc :
          (update_fan_speed { s with consecutive_failures := 0, current_heart_rate := r }
            r sr false).2.2 = true
        · simp [h1, h2, ha, hb, hc]
        · simp only [Bool.not_eq_true] at hc
          simp [h1, h2, ha, hb, hc]
    | none =>
        have h1 := monitor_cycle_failure_eq s ⟨p, sr, dr, renv⟩ hf
        have h2 := monitor_cycle_failure_eq s ⟨p, sr, false, renv⟩ hf
        by_cases hc : 2 ≤ s.consecutive_failures + 1
        · simp [h1, h2, hc]
        · simp [h1, h2, hc]
  · intro renv h
    obtain ⟨d, dn, up⟩ := renv
    subst h
    cases dn <;> cases up <;> simp [reset_bluetooth]
  · intro renv h
    obtain ⟨d, dn, up⟩ := renv
    subst h
    simp [reset_bluetooth]

/-- C3 amended witness: with a healthy display and adapter, the first effect
of a reset is showing " BT ". -/
theorem C3_display_failures_amended_witness :
    (reset_bluetooth { displayRaises := false, downRaises := false, upRaises := false }).2.head?
      = some (Effect.displayShow " BT ") :=
  C3_display_failures_amended.2.1
    { displayRaises := false, downRaises := false, upRaises := false } rfl

/-- C10: immediately after construction the physical actuator sits at its
minimum position (-1, from the `servo.min()` in `__init__`) while the stored
`current_servo_pos` is 0; hence a first successful Reading whose mapped
position p has |p - 0| ≤ 0.1 — exactly the heart rates in [111.5, 118.5] —
is swallowed by the dead-band check: no servo command is issued and the
actuator stays at the minimum position for that cycle. -/
theorem C10_initial_deadband :
    ∀ (d : Bool) (env : CycleEnv) (r : ℚ),
      (init d).servoValue = -1
      ∧ (init d).current_servo_pos = 0
      ∧ ((get_heart_rate (init d) env.poll).1 = some r →
          |heart_rate_to_servo_position r - 0| ≤ 1/10 →
          (monitor_cycle (init d) env).state.servoValue = -1
          ∧ (monitor_cycle (init d) env).state.current_servo_pos = 0
          ∧ hasServoSet (monitor_cycle (init d) env).actions = false)
      ∧ (|heart_rate_to_servo_position r - 0| ≤ 1/10 ↔ (223/2 ≤ r ∧ r ≤ 237/2)) := by
  intro d env r
  refine ⟨rfl, rfl, ?_, ?_⟩
  · intro hf hdb
    have hdb' : |heart_rate_to_servo_position r| ≤ 1/10 := by simpa using hdb
    have heq := monitor_cycle_success_eq (init d) env r hf
    have hcond : ¬(|heart_rate_to_servo_position r -
        ({ init d with consecutive_failures := 0, current_heart_rate := r }
          : ControllerState).current_servo_pos| > 1/10) := by
      have hpos : ({ init d with consecutive_failures := 0, current_heart_rate := r }
          : ControllerState).current_servo_pos = 0 := rfl
      rw [hpos, sub_zero]
      exact not_lt.mpr hdb'
    have hufs := update_fan_speed_deadband
      { init d with consecutive_failures := 0, current_heart_rate := r }
      r env.servoRaises env.displayRaises hcond
    simp only [heq, hufs]
    refine ⟨rfl, rfl, hasServoSet_update_display _ _ _ _⟩
  · rw [sub_zero]
    rcases lt_or_le r 80 with hA | hA
    · rw [map_below_band r hA]
      constructor
      · intro h
        exfalso
        rw [abs_neg, abs_one] at h
        norm_num at h
      · rintro ⟨hl, _⟩
        exfalso
        linarith
    · rcases le_or_lt r 150 with hB | hB
      · rw [map_in_band r hA hB, abs_le]
        constructor
        · rintro ⟨hL, hR⟩
          constructor <;> linarith
        · rintro ⟨hl, hr2⟩
          constructor <;> linarith
      · rw [map_above_band r hB]
        constructor
        · intro h
          exfalso
          rw [abs_one] at h
          norm_num at h
        · rintro ⟨_, hr2⟩
          exfalso
          linarith

/-- C10 witness: at the band midpoint 115 BPM (mapped position 0) the first
cycle issues no servo command and the actuator stays at -1. -/
theorem C10_initial_deadband_witness :
    (monitor_cycle (init false) midbandEnv).state.servoValue = -1
    ∧ (monitor_cycle (init false) midbandEnv).state.current_servo_pos = 0
    ∧ hasServoSet (monitor_cycle (init false) midbandEnv).actions = false :=
  (C10_initial_deadband false midbandEnv 115).2.2.1 (by decide) (by decide)
